import Mathlib

/-!
Verification of the stereoplayer AV pipeline (src/src/js/opencv-wrapper.js).

This file gives a shallow embedding of the pipeline's data model and of the
operations the specification talks about: the frame-handler admission policy
into the circular (ring) buffer, the frame conversion step built on the
external OpenCV primitives, the pacing arithmetic of the video-processing
interval, the capture guards of processVideoFrame, and the lifecycle
operations (connectVideoTexture, play, stop, getCurrentTime, dispose).

JS numbers used as media times are modelled as rationals; byte buffers are
lists of naturals; nullable JS fields are Options.  External collaborators
(the 2D canvas, OpenCV matrices, the DOM) are modelled by the shape of their
contracts, which is all the verified properties depend on.
-/

/-- A captured video frame as emitted on the videoFrame event:
`{ data, width, height, timestamp }` (opencv-wrapper.js lines 305-310). -/
structure Frame where
  data : List Nat
  width : Nat
  height : Nat
  timestamp : ℚ
deriving DecidableEq

/-- Pixel format of the texture target; the code only ever uses RGBA. -/
inductive TexFormat where
  | RGBA
deriving DecidableEq

/-- The texture requirements (the spec's TargetSpec) stored on the pipeline:
`{ width, height, format, frameSize }` (opencv-wrapper.js lines 68-73). -/
structure TextureRequirements where
  width : Nat
  height : Nat
  format : TexFormat
  frameSize : Nat
deriving DecidableEq

/-- The MPEG texture metadata recorded at bind time
(`texture.userData.mpegTextureInfo`, opencv-wrapper.js line 372). -/
structure MpegTextureInfo where
  width : Nat
  height : Nat
  frameSize : Nat
deriving DecidableEq

/-- The ring-buffer binding mutated by the frame handler: the byte store
plus the caller-tracked `count` and `maxFrames` fields
(opencv-wrapper.js lines 397-424).  The ring itself is treated as an opaque
byte store: `push` appends at the write side, `pop` removes from the read
side.  `count` is a JS number that the handler decrements and increments,
so it is modelled as an integer. -/
structure CircularBuffer where
  data : List Nat
  count : Int
  maxFrames : Int
deriving DecidableEq

/-- One admission of a captured frame by the frame handler installed in
connectVideoTexture (opencv-wrapper.js lines 391-430): drop the frame if its
carried dimensions differ from the bound MPEG metadata; otherwise, if
`count >= maxFrames`, pop one payload-length worth of bytes from the read
side and decrement `count`, then push the new payload and increment
`count`. -/
def frameHandlerWrite (info : MpegTextureInfo) (b : CircularBuffer)
    (f : Frame) : CircularBuffer :=
  if f.width ≠ info.width ∨ f.height ≠ info.height then b
  else
    let b1 :=
      if b.count ≥ b.maxFrames then
        { data := b.data.drop f.data.length, count := b.count - 1,
          maxFrames := b.maxFrames }
      else b
    { data := b1.data ++ f.data, count := b1.count + 1,
      maxFrames := b1.maxFrames }

/-- Sequential admission of a list of captured frames, oldest first. -/
def frameHandlerWriteAll (info : MpegTextureInfo) (b : CircularBuffer)
    (fs : List Frame) : CircularBuffer :=
  fs.foldl (frameHandlerWrite info) b

/-- The byte contents of a list of frames, concatenated oldest first. -/
def frameBytes (fs : List Frame) : List Nat :=
  fs.foldr (fun f acc => f.data ++ acc) []

theorem frameBytes_nil : frameBytes [] = [] := rfl

theorem frameBytes_cons (f : Frame) (fs : List Frame) :
    frameBytes (f :: fs) = f.data ++ frameBytes fs := rfl

theorem frameBytes_append (xs ys : List Frame) :
    frameBytes (xs ++ ys) = frameBytes xs ++ frameBytes ys := by
  induction xs with
  | nil => simp [frameBytes_nil, frameBytes]
  | cons x xs ih =>
      simp [frameBytes_cons, ih, List.append_assoc]

/-- While the running count stays strictly below `maxFrames`, admissions of
dimension-valid frames never evict: the bytes accumulate and the count grows
by the number of frames admitted. -/
theorem frameHandlerWriteAll_no_evict (info : MpegTextureInfo) :
    ∀ (fs : List Frame) (b : CircularBuffer),
      (∀ f ∈ fs, f.width = info.width ∧ f.height = info.height) →
      b.count + fs.length ≤ b.maxFrames →
      frameHandlerWriteAll info b fs =
        ⟨b.data ++ frameBytes fs, b.count + fs.length, b.maxFrames⟩ := by
  intro fs
  induction fs with
  | nil =>
      intro b _ _
      simp [frameHandlerWriteAll, frameBytes_nil]
  | cons f fs ih =>
      intro b hvalid hroom
      have hf := hvalid f (List.mem_cons_self f fs)
      have hlt : ¬ b.count ≥ b.maxFrames := by
        simp only [List.length_cons] at hroom
        push_cast at hroom
        omega
      have hstep : frameHandlerWrite info b f =
          ⟨b.data ++ f.data, b.count + 1, b.maxFrames⟩ := by
        simp [frameHandlerWrite, hf.1, hf.2, hlt]
      have htail : frameHandlerWriteAll info ⟨b.data ++ f.data, b.count + 1,
          b.maxFrames⟩ fs =
          ⟨(b.data ++ f.data) ++ frameBytes fs, (b.count + 1) + fs.length,
            b.maxFrames⟩ := by
        apply ih
        · intro g hg
          exact hvalid g (List.mem_cons_of_mem f hg)
        · simp only [List.length_cons] at hroom
          push_cast at hroom ⊢
          omega
      calc frameHandlerWriteAll info b (f :: fs)
      _ = frameHandlerWriteAll info (frameHandlerWrite info b f) fs := rfl
      _ = frameHandlerWriteAll info ⟨b.data ++ f.data, b.count + 1,
            b.maxFrames⟩ fs := by rw [hstep]
      _ = ⟨(b.data ++ f.data) ++ frameBytes fs, (b.count + 1) + fs.length,
            b.maxFrames⟩ := htail
      _ = ⟨b.data ++ frameBytes (f :: fs), b.count + (f :: fs).length,
            b.maxFrames⟩ := by
          simp [frameBytes_cons, List.append_assoc]
          ring

/-- Sample MPEG metadata for a tiny 2x1 RGBA target (frameSize 8 bytes). -/
def sampleInfo : MpegTextureInfo := ⟨2, 1, 8⟩

/-- Four sample frames matching `sampleInfo`, with distinct byte contents. -/
def sampleFrameA : Frame := ⟨List.replicate 8 1, 2, 1, 0⟩

def sampleFrameB : Frame := ⟨List.replicate 8 2, 2, 1, 0⟩

def sampleFrameC : Frame := ⟨List.replicate 8 3, 2, 1, 0⟩

def sampleFrameD : Frame := ⟨List.replicate 8 4, 2, 1, 0⟩

/-- C1: admission preserves `count ≤ maxFrames`; when the buffer is full a
valid payload first pops exactly one payload-length of bytes from the read
side (net count unchanged) before the push; and admitting `maxFrames + 1`
sequential valid frames into an empty binding leaves `count = maxFrames`
with exactly the oldest frame evicted. -/
theorem frameHandler_admission_cap (info : MpegTextureInfo) :
    (∀ (b : CircularBuffer) (f : Frame), b.count ≤ b.maxFrames →
        (frameHandlerWrite info b f).count ≤ b.maxFrames)
    ∧ (∀ (b : CircularBuffer) (f : Frame),
        f.width = info.width → f.height = info.height →
        b.count ≥ b.maxFrames →
        (frameHandlerWrite info b f).data = b.data.drop f.data.length ++ f.data
        ∧ (frameHandlerWrite info b f).count = b.count)
    ∧ (∀ (m L : Nat) (front : List Frame) (flast : Frame),
        1 ≤ m → front.length = m →
        (∀ f ∈ front ++ [flast],
          f.width = info.width ∧ f.height = info.height ∧ f.data.length = L) →
        (frameHandlerWriteAll info ⟨[], 0, (m : Int)⟩
            (front ++ [flast])).count = (m : Int)
        ∧ (frameHandlerWriteAll info ⟨[], 0, (m : Int)⟩
            (front ++ [flast])).data
          = frameBytes ((front ++ [flast]).drop 1)) := by
  refine ⟨?_, ?_, ?_⟩
  · intro b f hle
    simp only [frameHandlerWrite]
    split
    · exact hle
    · split <;> simp <;> omega
  · intro b f hw hh hfull
    have hdim : ¬ (f.width ≠ info.width ∨ f.height ≠ info.height) := by
      simp [hw, hh]
    simp only [frameHandlerWrite, if_neg hdim, if_pos hfull]
    constructor
    · simp
    · omega
  · intro m L front flast hm hlen hvalid
    obtain ⟨f1, front', rfl⟩ : ∃ f1 front', front = f1 :: front' := by
      cases front with
      | nil => simp at hlen; omega
      | cons a l => exact ⟨a, l, rfl⟩
    have hfull := frameHandlerWriteAll_no_evict info (f1 :: front')
      ⟨[], 0, (m : Int)⟩
      (fun f hf => ⟨(hvalid f (List.mem_append_left _ hf)).1,
        (hvalid f (List.mem_append_left _ hf)).2.1⟩)
      (by simp [hlen])
    have hsplit : frameHandlerWriteAll info ⟨[], 0, (m : Int)⟩
        ((f1 :: front') ++ [flast])
        = frameHandlerWrite info
            (frameHandlerWriteAll info ⟨[], 0, (m : Int)⟩ (f1 :: front'))
            flast := by
      simp [frameHandlerWriteAll, List.foldl_append]
    have hcast : ((f1 :: front').length : Int) = (m : Int) := by
      exact_mod_cast congrArg Nat.cast hlen
    rw [hsplit, hfull]
    have hfl := hvalid flast (by simp)
    have hdim : ¬ (flast.width ≠ info.width ∨ flast.height ≠ info.height) := by
      simp [hfl.1, hfl.2.1]
    have hfullcond : (0 : Int) + ((f1 :: front').length : Int) ≥ (m : Int) := by
      omega
    simp only [frameHandlerWrite, if_neg hdim, if_pos hfullcond]
    constructor
    · omega
    · have h1 := (hvalid f1 (by simp)).2.2
      have hL : flast.data.length = f1.data.length := by
        rw [hfl.2.2, h1]
      simp only [frameBytes_cons, hL, List.nil_append]
      rw [List.drop_left]
      simp [frameBytes_append, frameBytes_cons, frameBytes_nil]

/-- Witness for C1, instantiating the sequential-admission conjunct at
Scenario B shape: `maxFrames = 3`, four valid frames admitted into an empty
binding leave `count = 3` with the buffer holding frames 2, 3, 4. -/
theorem frameHandler_admission_cap_witness :
    (frameHandlerWriteAll sampleInfo ⟨[], 0, (3 : Int)⟩
        ([sampleFrameA, sampleFrameB, sampleFrameC] ++ [sampleFrameD])).count
      = (3 : Int)
    ∧ (frameHandlerWriteAll sampleInfo ⟨[], 0, (3 : Int)⟩
        ([sampleFrameA, sampleFrameB, sampleFrameC] ++ [sampleFrameD])).data
      = frameBytes
          (([sampleFrameA, sampleFrameB, sampleFrameC] ++ [sampleFrameD]).drop 1) :=
  (frameHandler_admission_cap sampleInfo).2.2 3 8
    [sampleFrameA, sampleFrameB, sampleFrameC] sampleFrameD
    (by decide) (by decide) (by decide)

/-- A payload carrying the bound dimensions 640x360 but only 900000 raw
bytes (fewer than frameSize 921600). -/
def oversizedMismatchFrame : Frame := ⟨List.replicate 900000 0, 640, 360, 0⟩

/-- The MPEG metadata of Scenario C: 640x360 RGBA, frameSize 921600. -/
def hdInfo : MpegTextureInfo := ⟨640, 360, 921600⟩

/-- Counterexample to C4 as stated: the frame handler checks only the
payload's carried width/height against the bound metadata, never its byte
length, so a payload whose dimensions match but whose byte length (900000)
differs from frameSize (921600) is pushed anyway and `count` changes. -/
theorem frameHandler_length_unchecked_cex :
    oversizedMismatchFrame.data.length ≠ hdInfo.frameSize
    ∧ (frameHandlerWrite hdInfo ⟨[], 0, 3⟩ oversizedMismatchFrame).count
        ≠ (⟨[], 0, 3⟩ : CircularBuffer).count := by
  constructor
  · show (List.replicate 900000 0).length ≠ 921600
    rw [List.length_replicate]
    decide
  · show (1 : Int) ≠ 0
    decide

/-- C4 amended: a payload whose byte length differs from the bound
frameSize is dropped with the binding unchanged, provided the payload's
byte length is consistent with its carried dimensions (length = w*h*4, as
holds for every frame the capture step produces) and the bound frameSize is
consistent with the bound dimensions: the length mismatch then forces the
dimension mismatch that the handler does check. -/
theorem frameHandler_length_mismatch_drop (info : MpegTextureInfo)
    (b : CircularBuffer) (f : Frame)
    (hf : f.data.length = f.width * f.height * 4)
    (hinfo : info.frameSize = info.width * info.height * 4)
    (hne : f.data.length ≠ info.frameSize) :
    frameHandlerWrite info b f = b := by
  have hdim : f.width ≠ info.width ∨ f.height ≠ info.height := by
    by_contra h
    push_neg at h
    exact hne (by rw [hf, h.1, h.2, hinfo])
  simp only [frameHandlerWrite, if_pos hdim]

/-- A 1x1 RGBA payload (4 bytes), inconsistent with `sampleInfo`'s
frameSize of 8 bytes. -/
def tinyMismatchFrame : Frame := ⟨List.replicate 4 0, 1, 1, 0⟩

/-- Witness for the amended C4: a well-formed 4-byte payload admitted
against metadata expecting 8 bytes leaves the binding unchanged. -/
theorem frameHandler_length_mismatch_drop_witness :
    frameHandlerWrite sampleInfo ⟨[], 0, 3⟩ tinyMismatchFrame
      = (⟨[], 0, 3⟩ : CircularBuffer) :=
  frameHandler_length_mismatch_drop sampleInfo ⟨[], 0, 3⟩ tinyMismatchFrame
    (by decide) (by decide) (by decide)

/-- Image data as returned by the 2D canvas getImageData: the raw RGBA
bytes plus the read-back dimensions.  The canvas itself is an external
browser surface, so only the shape of its contract is modelled. -/
structure ImageData where
  data : List Nat
  width : Nat
  height : Nat
deriving DecidableEq

/-- An OpenCV matrix: rows, cols, channel count and backing bytes. -/
structure Mat where
  rows : Nat
  cols : Nat
  channels : Nat
  data : List Nat
deriving DecidableEq

/-- cv.matFromImageData: wraps the RGBA canvas bytes as a height x width
four-channel matrix (opencv-wrapper.js line 791). -/
def matFromImageData (img : ImageData) : Mat :=
  ⟨img.height, img.width, 4, img.data⟩

/-- Byte transform of cv.cvtColor with COLOR_RGBA2RGB: each four-byte RGBA
pixel keeps its first three channels. -/
def dropAlpha : List Nat → List Nat
  | r :: g :: b :: _ :: rest => r :: g :: b :: dropAlpha rest
  | _ => []

/-- Byte transform of cv.cvtColor with COLOR_RGB2RGBA: each three-byte RGB
pixel gains an opaque alpha channel. -/
def addAlpha : List Nat → List Nat
  | r :: g :: b :: rest => r :: g :: b :: 255 :: addAlpha rest
  | _ => []

/-- cv.cvtColor COLOR_RGBA2RGB (opencv-wrapper.js line 867): same
dimensions, three channels. -/
def cvtColorRGBA2RGB (m : Mat) : Mat :=
  ⟨m.rows, m.cols, 3, dropAlpha m.data⟩

/-- cv.cvtColor COLOR_RGB2RGBA (opencv-wrapper.js line 888): same
dimensions, four channels. -/
def cvtColorRGB2RGBA (m : Mat) : Mat :=
  ⟨m.rows, m.cols, 4, addAlpha m.data⟩

/-- cv.resize to Size(targetWidth, targetHeight) with INTER_LINEAR
(opencv-wrapper.js line 878).  The resampling primitive belongs to the
external vision library (out of scope per the spec), so it is modelled by
its contract: a target-height x target-width matrix with the same channel
count whose pixel (r, c) samples the source at the proportionally scaled
coordinates. -/
def resizeLinear (m : Mat) (tw th : Nat) : Mat :=
  ⟨th, tw, m.channels,
    (List.range (th * tw * m.channels)).map (fun i =>
      let ch := m.channels
      let p := i / ch
      let c0 := i % ch
      let r := p / tw
      let c := p % tw
      let sr := if th = 0 then 0 else r * m.rows / th
      let sc := if tw = 0 then 0 else c * m.cols / tw
      m.data.getD ((sr * m.cols + sc) * ch + c0) 0)⟩

/-- A frame payload as emitted by the converting processVideoFrame
(opencv-wrapper.js lines 923-927): bytes plus the target dimensions. -/
structure EmittedFrame where
  data : List Nat
  width : Nat
  height : Nat
deriving DecidableEq

/-- The conversion pipeline of processVideoFrame (opencv-wrapper.js lines
791-927): wrap the captured image data as a matrix, convert RGBA to RGB,
resize with linear interpolation to the target dimensions, convert back to
RGBA, and emit the resulting bytes with the target dimensions.  If the
target dimensions are zero or missing the step returns without emitting
(line 803). -/
def processVideoFrameConvert (img : ImageData) (tr : TextureRequirements) :
    Option EmittedFrame :=
  if tr.width = 0 ∨ tr.height = 0 then none
  else
    let src := matFromImageData img
    let dst := cvtColorRGBA2RGB src
    let resized := resizeLinear dst tr.width tr.height
    let rgba := cvtColorRGB2RGBA resized
    some ⟨rgba.data, tr.width, tr.height⟩

/-- Adding alpha channels turns each three-byte pixel into four bytes. -/
theorem addAlpha_length :
    ∀ (k : Nat) (l : List Nat), l.length = 3 * k →
      (addAlpha l).length = 4 * k := by
  intro k
  induction k with
  | zero =>
      intro l h
      have : l = [] := List.eq_nil_of_length_eq_zero (by omega)
      subst this
      rfl
  | succ k ih =>
      intro l h
      cases l with
      | nil => simp at h
      | cons a l1 =>
        cases l1 with
        | nil => simp at h; omega
        | cons b l2 =>
          cases l2 with
          | nil => simp at h; omega
          | cons c rest =>
            simp only [List.length_cons] at h
            have hr : rest.length = 3 * k := by omega
            simp only [addAlpha, List.length_cons, ih rest hr]
            omega

/-- C2: converting a captured frame against a valid TargetSpec (nonzero
dimensions, frameSize = width * height * 4 for RGBA) performs, in order,
the four-to-three channel conversion, the linear-interpolation resize to
the target dimensions, and the re-expansion to four channels, and every
emitted byte sequence has length exactly frameSize. -/
theorem processVideoFrame_output_size (img : ImageData)
    (tr : TextureRequirements) (hw : tr.width ≠ 0) (hh : tr.height ≠ 0)
    (hfs : tr.frameSize = tr.width * tr.height * 4) :
    processVideoFrameConvert img tr
      = some ⟨(cvtColorRGB2RGBA (resizeLinear (cvtColorRGBA2RGB
            (matFromImageData img)) tr.width tr.height)).data,
          tr.width, tr.height⟩
    ∧ ∀ out, processVideoFrameConvert img tr = some out →
        out.data.length = tr.frameSize := by
  have hguard : ¬ (tr.width = 0 ∨ tr.height = 0) := by simp [hw, hh]
  have heq : processVideoFrameConvert img tr
      = some ⟨(cvtColorRGB2RGBA (resizeLinear (cvtColorRGBA2RGB
            (matFromImageData img)) tr.width tr.height)).data,
          tr.width, tr.height⟩ := by
    simp only [processVideoFrameConvert, if_neg hguard]
  refine ⟨heq, ?_⟩
  intro out hout
  rw [heq, Option.some_inj] at hout
  subst hout
  have hres : (resizeLinear (cvtColorRGBA2RGB (matFromImageData img))
      tr.width tr.height).data.length = 3 * (tr.height * tr.width) := by
    simp only [resizeLinear, cvtColorRGBA2RGB, List.length_map,
      List.length_range]
    ring
  show (addAlpha (resizeLinear (cvtColorRGBA2RGB (matFromImageData img))
      tr.width tr.height).data).length = tr.frameSize
  rw [addAlpha_length (tr.height * tr.width) _ hres, hfs]
  ring

/-- A 1920x1080 RGBA source image (Scenario A's source resolution). -/
def fullHDImage : ImageData := ⟨List.replicate (1920 * 1080 * 4) 0, 1920, 1080⟩

/-- Scenario A's TargetSpec: 640x360 RGBA, frameSize 921600. -/
def sceneTargetSpec : TextureRequirements := ⟨640, 360, .RGBA, 921600⟩

/-- Witness for C2 at Scenario A: converting a 1920x1080 source frame
against the 640x360 RGBA TargetSpec yields exactly 921600 bytes. -/
theorem processVideoFrame_output_size_witness :
    (processVideoFrameConvert fullHDImage sceneTargetSpec).map
      (fun out => out.data.length) = some 921600 := by
  have h := processVideoFrame_output_size fullHDImage sceneTargetSpec
    (by decide) (by decide) (by decide)
  have h2 := h.2 _ h.1
  rw [h.1]
  simpa [sceneTargetSpec] using h2

/-- Allocation/release trace of one conversion step: which OpenCV scratch
matrices the step allocates and which it deletes on the exit path taken
(opencv-wrapper.js lines 791-929).  `src` (line 791) and `dst` (line 794)
are allocated before the target-dimension guard (line 803), and the
guard's early return deletes nothing; on the normal path `resized` is
deleted at line 908 and `src`, `dst`, `rgba` at lines 919-921. -/
structure ConvTrace where
  emitted : Option EmittedFrame
  matsAllocated : List String
  matsDeleted : List String
deriving DecidableEq

/-- The conversion step of processVideoFrame instrumented with the
allocation/release trace of its OpenCV scratch matrices. -/
def processVideoFrameMats (img : ImageData) (tr : TextureRequirements) :
    ConvTrace :=
  if tr.width = 0 ∨ tr.height = 0 then
    { emitted := none, matsAllocated := ["src", "dst"], matsDeleted := [] }
  else
    { emitted := processVideoFrameConvert img tr,
      matsAllocated := ["src", "dst", "resized", "rgba"],
      matsDeleted := ["resized", "src", "dst", "rgba"] }

/-- A tiny 4x2 RGBA source image. -/
def tinyImage : ImageData := ⟨List.replicate 32 0, 4, 2⟩

/-- C6 (code bug): at the zero-target-dimension early return the
conversion step has already allocated the `src` and `dst` scratch matrices
and deletes neither before returning, contradicting the
release-on-every-exit discipline; on the normal path every allocated
scratch matrix is deleted. -/
theorem converter_guard_leaks_mats :
    (processVideoFrameMats tinyImage ⟨0, 360, .RGBA, 0⟩).emitted = none
    ∧ (processVideoFrameMats tinyImage ⟨0, 360, .RGBA, 0⟩).matsAllocated
        = ["src", "dst"]
    ∧ (processVideoFrameMats tinyImage ⟨0, 360, .RGBA, 0⟩).matsDeleted = []
    ∧ ((processVideoFrameMats tinyImage ⟨2, 1, .RGBA, 8⟩).matsAllocated.all
        (fun x =>
          (processVideoFrameMats tinyImage ⟨2, 1, .RGBA, 8⟩).matsDeleted.contains x))
      = true := by
  refine ⟨rfl, rfl, rfl, ?_⟩
  decide

/-- The scheduler tick period chosen by startVideoProcessing
(opencv-wrapper.js line 206): the smaller of half the target interval and
16.67 ms, so the pacing check runs at least at 60 Hz. -/
def pacingTickPeriod (targetInterval : ℚ) : ℚ :=
  min (targetInterval / 2) (1667 / 100)

/-- The mutable pacing state captured by the startVideoProcessing closure
(opencv-wrapper.js lines 189-190): the time of the last processed capture
and the accumulated frame delay. -/
structure PacingState where
  lastProcessTime : ℚ
  frameDelay : ℚ
deriving DecidableEq

/-- The fire condition checked on each scheduler tick (opencv-wrapper.js
line 197): `elapsed >= targetInterval - frameDelay`. -/
def pacingFire (targetInterval : ℚ) (s : PacingState) (now : ℚ) : Bool :=
  targetInterval - s.frameDelay ≤ now - s.lastProcessTime

/-- One scheduler tick of the pacing loop (opencv-wrapper.js lines
192-205): when the fire condition holds, the capture callback runs (taking
`processTime` of wall clock), `frameDelay` becomes
`max(0, processTime - (targetInterval - elapsed))` and `lastProcessTime`
becomes `now`; otherwise the state is unchanged. -/
def pacingTick (targetInterval : ℚ) (s : PacingState) (now processTime : ℚ) :
    PacingState :=
  if targetInterval - s.frameDelay ≤ now - s.lastProcessTime then
    { lastProcessTime := now,
      frameDelay :=
        max 0 (processTime - (targetInterval - (now - s.lastProcessTime))) }
  else s

/-- The index (counted from the tick that fired the previous capture) of
the first subsequent scheduler tick at which the fire condition
`k * tick >= threshold` holds, where threshold = targetInterval -
frameDelay.  Ticks are one tick period apart, so the earliest candidate is
tick 1. -/
def nextFireTick (tick threshold : ℚ) : Nat :=
  max 1 ⌈threshold / tick⌉₊

theorem pacingTickPeriod_pos (T : ℚ) (hT : 0 < T) : 0 < pacingTickPeriod T := by
  unfold pacingTickPeriod
  apply lt_min (by linarith) (by norm_num)

theorem nextFireTick_fires (tick threshold : ℚ) (h : 0 < tick) :
    threshold ≤ (nextFireTick tick threshold : ℚ) * tick := by
  have h1 : threshold / tick ≤ (⌈threshold / tick⌉₊ : ℚ) := Nat.le_ceil _
  have h2 : ((⌈threshold / tick⌉₊ : ℕ) : ℚ) ≤ ((max 1 ⌈threshold / tick⌉₊ : ℕ) : ℚ) := by
    exact_mod_cast Nat.le_max_right 1 _
  have h3 : threshold / tick ≤ ((nextFireTick tick threshold : ℕ) : ℚ) := by
    unfold nextFireTick
    linarith
  calc threshold = threshold / tick * tick := by field_simp
  _ ≤ (nextFireTick tick threshold : ℚ) * tick := by
      apply mul_le_mul_of_nonneg_right h3 (le_of_lt h)

theorem nextFireTick_least (tick threshold : ℚ) (h : 0 < tick) (k : Nat)
    (hk : 1 ≤ k) (hfire : threshold ≤ (k : ℚ) * tick) :
    nextFireTick tick threshold ≤ k := by
  unfold nextFireTick
  have hdiv : threshold / tick ≤ (k : ℚ) := by
    rw [div_le_iff₀ h]
    exact hfire
  have hceil : ⌈threshold / tick⌉₊ ≤ k := Nat.ceil_le.mpr hdiv
  omega

theorem nextFireTick_bound (tick threshold bound : ℚ) (h : 0 < tick)
    (hb : threshold ≤ bound) (hb0 : 0 ≤ bound) :
    (nextFireTick tick threshold : ℚ) * tick ≤ bound + tick := by
  by_cases hz : ⌈threshold / tick⌉₊ = 0
  · have : nextFireTick tick threshold = 1 := by
      unfold nextFireTick
      omega
    rw [this]
    push_cast
    linarith
  · have h1 : 1 ≤ ⌈threshold / tick⌉₊ := by omega
    have hK : nextFireTick tick threshold = ⌈threshold / tick⌉₊ := by
      unfold nextFireTick
      omega
    have hpos : 0 < threshold / tick := by
      by_contra hcon
      push_neg at hcon
      exact hz (Nat.ceil_eq_zero.mpr hcon)
    have hlt : ((⌈threshold / tick⌉₊ : ℕ) : ℚ) < threshold / tick + 1 :=
      Nat.ceil_lt_add_one (le_of_lt hpos)
    have hmul : ((⌈threshold / tick⌉₊ : ℕ) : ℚ) * tick < (threshold / tick + 1) * tick :=
      mul_lt_mul_of_pos_right hlt h
    have hdiv : threshold / tick * tick = threshold := by field_simp
    rw [hK]
    have hfin : (threshold / tick + 1) * tick = threshold + tick := by
      rw [add_mul, hdiv, one_mul]
    linarith

/-- C3: the scheduler tick period is the smaller of half the target
interval and 16.67 ms; the capture callback fires exactly when
`elapsed >= targetInterval - frameDelay`, after which `frameDelay` becomes
`max(0, processTime - (targetInterval - elapsed))` and `lastProcessTime`
becomes `now`, while a non-firing tick changes nothing; and after a
capture leaving any nonnegative `frameDelay` d (in particular one whose
processing time exceeded the target interval), the next capture fires at
the first subsequent tick k with `k * tick >= targetInterval - d`, which
comes at most one tick period after the original target interval — no
unbounded accumulation of delay. -/
theorem startVideoProcessing_pacing (T d : ℚ) (hT : 0 < T) (hd : 0 ≤ d) :
    pacingTickPeriod T = min (T / 2) (1667 / 100)
    ∧ (∀ (s : PacingState) (now : ℚ),
        pacingFire T s now = true ↔ T - s.frameDelay ≤ now - s.lastProcessTime)
    ∧ (∀ (s : PacingState) (now proc : ℚ), pacingFire T s now = true →
        pacingTick T s now proc
          = ⟨now, max 0 (proc - (T - (now - s.lastProcessTime)))⟩)
    ∧ (∀ (s : PacingState) (now proc : ℚ), pacingFire T s now = false →
        pacingTick T s now proc = s)
    ∧ T - d ≤ (nextFireTick (pacingTickPeriod T) (T - d) : ℚ) * pacingTickPeriod T
    ∧ (∀ k : Nat, 1 ≤ k → T - d ≤ (k : ℚ) * pacingTickPeriod T →
        nextFireTick (pacingTickPeriod T) (T - d) ≤ k)
    ∧ (nextFireTick (pacingTickPeriod T) (T - d) : ℚ) * pacingTickPeriod T
        ≤ T + pacingTickPeriod T := by
  have hτ := pacingTickPeriod_pos T hT
  refine ⟨rfl, ?_, ?_, ?_, ?_, ?_, ?_⟩
  · intro s now
    simp [pacingFire]
  · intro s now proc h
    have h' : T - s.frameDelay ≤ now - s.lastProcessTime := by
      simpa [pacingFire] using h
    simp [pacingTick, h']
  · intro s now proc h
    have h' : ¬ (T - s.frameDelay ≤ now - s.lastProcessTime) := by
      simpa [pacingFire] using h
    simp [pacingTick, h']
  · exact nextFireTick_fires _ _ hτ
  · intro k hk hkfire
    exact nextFireTick_least _ _ hτ k hk hkfire
  · exact nextFireTick_bound _ _ T hτ (by linarith) (le_of_lt hT)

/-- Witness for C3 at a target interval of 100 ms and a carried frame
delay of 130 ms (as left by a capture that took 230 ms): the next capture
fires at most one tick period past the original 100 ms interval. -/
theorem startVideoProcessing_pacing_witness :
    (nextFireTick (pacingTickPeriod 100) (100 - 130) : ℚ) * pacingTickPeriod 100
      ≤ 100 + pacingTickPeriod 100 :=
  (startVideoProcessing_pacing 100 130 (by decide) (by decide)).2.2.2.2.2.2

/-- The state of the hidden video element as read by the pipeline: the
browser-owned playback fields the code consults and mutates. -/
structure VideoElement where
  paused : Bool
  ended : Bool
  readyState : Nat
  currentTime : ℚ
  videoWidth : Nat
  videoHeight : Nat
deriving DecidableEq

/-- The videoDestination record `{canvas, context, texture}`
(opencv-wrapper.js line 112).  dispose nulls the three fields but keeps
the record itself (lines 1144-1148). -/
structure VideoDestination where
  canvas : Option Unit
  context : Option Unit
  texture : Option Unit
deriving DecidableEq

/-- The pipeline fields read and written by the modelled operations.
Nullable JS fields are Options; `videoSources` holds the ids stored in the
videoSources map and `frameHandlers` the ids whose frame handler was
registered on the videoFrame event. -/
structure AVPipeline where
  isInitialized : Bool
  videoElement : Option VideoElement
  audioContext : Option Unit
  dashPlayer : Option Unit
  videoDestination : Option VideoDestination
  playOverlay : Option Unit
  playButton : Option Unit
  videoProcessingInterval : Option Unit
  lastFrameTime : Option ℚ
  videoSources : List Nat
  frameHandlers : List Nat
  textureRequirements : TextureRequirements
deriving DecidableEq

/-- JS truthiness of the stored `_lastFrameTime`: both `undefined` and `0`
are falsy, so the skip check `this._lastFrameTime && ...`
(opencv-wrapper.js line 245) is bypassed when the previously accepted
timestamp is exactly 0. -/
def lastFrameTimeTruthy : Option ℚ → Bool
  | none => false
  | some t => decide (t ≠ 0)

/-- The canvas read-back: getImageData over a w x h canvas
(opencv-wrapper.js line 302).  Drawing is external browser behavior, so
the read-back is modelled by its shape: w*h RGBA pixels carrying the
canvas dimensions. -/
def getImageDataModel (w h : Nat) : ImageData :=
  ⟨List.replicate (w * h * 4) 0, w, h⟩

/-- One capture tick of the first AVPipeline's processVideoFrame
(opencv-wrapper.js lines 226-317): abort if the element is absent, paused
or ended; skip when the stored last frame time is truthy and the source
time advanced less than 1/60 s since it; record the current source time;
skip on zero source dimensions; otherwise set the canvas to the target
dimensions (lines 264-265), draw the letterboxed frame, read back the
target-sized canvas and emit a frame carrying the read-back dimensions
and the source timestamp.  A zero target dimension makes getImageData
throw, caught at line 314 as a skipped tick. -/
def processVideoFrameCapture (s : AVPipeline) : AVPipeline × Option Frame :=
  match s.videoElement with
  | none => (s, none)
  | some v =>
    if v.paused || v.ended then (s, none)
    else if lastFrameTimeTruthy s.lastFrameTime
        && decide (v.currentTime - (s.lastFrameTime.getD 0) < 1 / 60) then
      (s, none)
    else
      let s1 := { s with lastFrameTime := some v.currentTime }
      if v.videoWidth = 0 ∨ v.videoHeight = 0 then (s1, none)
      else if s.textureRequirements.width = 0 ∨ s.textureRequirements.height = 0 then
        (s1, none)
      else
        let img := getImageDataModel s.textureRequirements.width
          s.textureRequirements.height
        (s1, some ⟨img.data, img.width, img.height, v.currentTime⟩)

/-- A pipeline capturing a 1920x1080 source against the 640x360 target. -/
def hdPipeline : AVPipeline :=
  { isInitialized := true,
    videoElement := some ⟨false, false, 2, 1, 1920, 1080⟩,
    audioContext := some (), dashPlayer := some (),
    videoDestination := some ⟨some (), some (), none⟩,
    playOverlay := none, playButton := none,
    videoProcessingInterval := some (),
    lastFrameTime := none, videoSources := [], frameHandlers := [],
    textureRequirements := ⟨640, 360, .RGBA, 921600⟩ }

/-- Counterexample to C5 as stated: capturing a 1920x1080 source against a
640x360 TargetSpec emits a frame whose width/height are the TargetSpec's
640x360 (the capture canvas is sized to the target before the draw), not
the source decode surface's 1920x1080. -/
theorem capture_dims_cex :
    (processVideoFrameCapture hdPipeline).2.map Frame.width = some 640
    ∧ (processVideoFrameCapture hdPipeline).2.map Frame.height = some 360
    ∧ hdPipeline.videoElement.map VideoElement.videoWidth = some 1920
    ∧ (640 : Nat) ≠ 1920 :=
  ⟨rfl, rfl, rfl, by decide⟩

/-- C5 amended: every frame emitted by the capture step carries width and
height equal to the read-back canvas's dimensions, which are the
TargetSpec's dimensions (the capture canvas is sized to the target before
the letterboxed draw), not the source decode surface's dimensions unless
they coincide. -/
theorem capture_frame_dims (s : AVPipeline) (f : Frame)
    (h : (processVideoFrameCapture s).2 = some f) :
    f.width = s.textureRequirements.width
    ∧ f.height = s.textureRequirements.height := by
  unfold processVideoFrameCapture at h
  cases hve : s.videoElement with
  | none => rw [hve] at h; simp at h
  | some v =>
    rw [hve] at h
    simp only [] at h
    split at h
    · simp at h
    · split at h
      · simp at h
      · split at h
        · simp at h
        · split at h
          · simp at h
          · simp only [Option.some_inj] at h
            subst h
            exact ⟨rfl, rfl⟩

/-- A pipeline capturing a 4x2 source against a tiny 2x1 target. -/
def tinyPipeline : AVPipeline :=
  { isInitialized := true,
    videoElement := some ⟨false, false, 2, 1, 4, 2⟩,
    audioContext := some (), dashPlayer := some (),
    videoDestination := some ⟨some (), some (), none⟩,
    playOverlay := none, playButton := none,
    videoProcessingInterval := some (),
    lastFrameTime := none, videoSources := [], frameHandlers := [],
    textureRequirements := ⟨2, 1, .RGBA, 8⟩ }

/-- Witness for the amended C5: the frame captured by `tinyPipeline`
carries the 2x1 target dimensions. -/
theorem capture_frame_dims_witness :
    (⟨List.replicate 8 0, 2, 1, 1⟩ : Frame).width
        = tinyPipeline.textureRequirements.width
    ∧ (⟨List.replicate 8 0, 2, 1, 1⟩ : Frame).height
        = tinyPipeline.textureRequirements.height :=
  capture_frame_dims tinyPipeline ⟨List.replicate 8 0, 2, 1, 1⟩ (by decide)

/-- The tiny pipeline about to accept a capture at source time 0. -/
def zeroTimePipeline : AVPipeline :=
  { tinyPipeline with videoElement := some ⟨false, false, 2, 0, 4, 2⟩ }

/-- Counterexample to C7 as stated: a capture accepted at source time 0
stores `_lastFrameTime = 0`, which is falsy, so the very next tick — only
1/120 s of source time later, inside the 1/60 s threshold — bypasses the
skip check and emits a second frame. -/
theorem capture_dedup_zero_cex :
    (processVideoFrameCapture zeroTimePipeline).2.map Frame.timestamp = some 0
    ∧ (processVideoFrameCapture
        { (processVideoFrameCapture zeroTimePipeline).1 with
          videoElement := some ⟨false, false, 2, 1 / 120, 4, 2⟩ }).2.map
        Frame.timestamp = some (1 / 120)
    ∧ ((1 : ℚ) / 120 - 0 < 1 / 60) := by
  refine ⟨rfl, rfl, by norm_num⟩

/-- C7 amended: whenever the stored last accepted source timestamp is
nonzero, a capture tick whose source time is within 1/60 s of it is
skipped without emitting a frame and without updating the stored
timestamp, independent of wall-clock pacing; the truthiness test treats a
stored timestamp of exactly 0 as absent, and only in that case can a
second frame be emitted within the threshold. -/
theorem capture_dedup_skip (s : AVPipeline) (v : VideoElement) (t : ℚ)
    (hv : s.videoElement = some v) (hlast : s.lastFrameTime = some t)
    (ht : t ≠ 0) (hclose : v.currentTime - t < 1 / 60)
    (hrun : v.paused = false) (hend : v.ended = false) :
    processVideoFrameCapture s = (s, none) := by
  unfold processVideoFrameCapture
  rw [hv, hlast]
  simp only [hrun, hend, lastFrameTimeTruthy, Bool.or_self, Bool.false_eq_true,
    if_false, decide_eq_true_eq, ne_eq, ht, not_false_eq_true,
    Bool.true_and, Option.getD_some]
  have hcond : (decide True && decide (v.currentTime - t < 1 / 60)) = true := by
    simp only [decide_eq_true_eq, Bool.and_eq_true]
    exact ⟨by simp, hclose⟩
  rw [if_pos hcond]

/-- A pipeline whose last accepted capture was at source time 1, ticking
again at source time 1 (0 s of source progress, inside the 1/60 s
threshold). -/
def dedupPipeline : AVPipeline :=
  { tinyPipeline with
    videoElement := some ⟨false, false, 2, 1, 4, 2⟩,
    lastFrameTime := some 1 }

/-- Witness for the amended C7: the repeat tick is skipped with the state
unchanged. -/
theorem capture_dedup_skip_witness :
    processVideoFrameCapture dedupPipeline = (dedupPipeline, none) :=
  capture_dedup_skip dedupPipeline ⟨false, false, 2, 1, 4, 2⟩ 1
    rfl rfl (by decide) (by simp) rfl rfl

/-- stopVideoProcessing (opencv-wrapper.js lines 219-224): clear the
processing interval when one is running; both branches leave the interval
field null. -/
def stopVideoProcessing (s : AVPipeline) : AVPipeline :=
  { s with videoProcessingInterval := none }

/-- startVideoProcessing (opencv-wrapper.js lines 174-216 and 713-735):
begin the processing interval only when none is running and the video
element's readyState is at least 2. -/
def startVideoProcessing (s : AVPipeline) : AVPipeline :=
  match s.videoElement with
  | none => s
  | some v =>
    if s.videoProcessingInterval = none ∧ 2 ≤ v.readyState then
      { s with videoProcessingInterval := some () }
    else s

/-- dispose (opencv-wrapper.js lines 1126-1160): stop the processing
interval, reset and drop the dash player, remove and drop the video
element, close and drop the audio context, null the videoDestination
record's three fields (the record object itself survives), remove the
play overlay and drop the play button, and clear isInitialized. -/
def dispose (s : AVPipeline) : AVPipeline :=
  let s1 := stopVideoProcessing s
  { s1 with
    dashPlayer := none,
    videoElement := none,
    audioContext := none,
    videoDestination := s1.videoDestination.map (fun _ => ⟨none, none, none⟩),
    playOverlay := none,
    playButton := none,
    isInitialized := false }

/-- The state effect of the converting AVPipeline's initialize on its
success path (opencv-wrapper.js lines 555-690): a no-op when already
initialized; otherwise the DOM, dash.js, metadata and user-gesture waits
complete and the method installs a fresh hidden video element (its
playback fields are owned by the browser and supplied here as a
parameter), the play overlay and button, the dash player, the audio
context and the canvas destination, and marks the pipeline initialized. -/
def initializePipeline (s : AVPipeline) (elem : VideoElement) : AVPipeline :=
  if s.isInitialized then s
  else
    { s with
      videoElement := some elem,
      playOverlay := some (),
      playButton := some (),
      dashPlayer := some (),
      audioContext := some (),
      videoDestination := some ⟨some (), some (), none⟩,
      isInitialized := true }

/-- videoElement.play() on success plus the registered play-event listener
(opencv-wrapper.js lines 695-699 and 1082-1094): clear the paused flag,
then the play event starts video processing. -/
def playPipeline (s : AVPipeline) : AVPipeline :=
  match s.videoElement with
  | none => s
  | some v =>
      startVideoProcessing { s with videoElement := some { v with paused := false } }

/-- One tick of the converting processVideoFrame (opencv-wrapper.js lines
752-930) reduced to its emission: nothing is emitted when the element is
absent, paused or ended, or its source dimensions are zero; otherwise the
element's frame is read back at source resolution and pushed through the
conversion pipeline, which also emits nothing when the target dimensions
are unset. -/
def processVideoFrameEmit (s : AVPipeline) : Option EmittedFrame :=
  match s.videoElement with
  | none => none
  | some v =>
    if v.paused || v.ended then none
    else if v.videoWidth = 0 ∨ v.videoHeight = 0 then none
    else
      processVideoFrameConvert (getImageDataModel v.videoWidth v.videoHeight)
        s.textureRequirements

/-- A fully initialized, playing pipeline with a 4x2 source and the tiny
2x1 target. -/
def livePipeline : AVPipeline :=
  { isInitialized := true,
    videoElement := some ⟨false, false, 2, 1, 4, 2⟩,
    audioContext := some (), dashPlayer := some (),
    videoDestination := some ⟨some (), some (), none⟩,
    playOverlay := some (), playButton := some (),
    videoProcessingInterval := some (),
    lastFrameTime := none, videoSources := [], frameHandlers := [],
    textureRequirements := ⟨2, 1, .RGBA, 8⟩ }

/-- A fresh hidden video element as recreated by a renewed initialize,
loaded (readyState 2) with 4x2 source content, initially paused. -/
def freshElement : VideoElement := ⟨true, false, 2, 0, 4, 2⟩

/-- Counterexample to C9 as stated: dispose leaves `isInitialized = false`
— the constructor's uninitialized value, not a terminal Disposed state —
so a subsequent initialize() and play() succeed and a videoFrame is
emitted again after the dispose. -/
theorem dispose_not_terminal_cex :
    (dispose livePipeline).isInitialized = false
    ∧ (dispose livePipeline).videoProcessingInterval = none
    ∧ (processVideoFrameEmit
        (playPipeline
          (initializePipeline (dispose livePipeline) freshElement))).isSome
      = true := by
  refine ⟨rfl, rfl, ?_⟩
  decide

/-- C9 amended: from any state, dispose() stops the processing interval
(no dangling timer), detaches the video element, closes the audio
context, drops the dash player and clears isInitialized; a disposed
pipeline emits no videoFrame, and a repeated dispose() is a no-op
(dispose is idempotent).  There is no terminal Disposed state: the flag
returns to its uninitialized value, and videoFrame events can resume only
after a renewed initialize(). -/
theorem dispose_resets (s : AVPipeline) :
    (dispose s).videoProcessingInterval = none
    ∧ (dispose s).videoElement = none
    ∧ (dispose s).audioContext = none
    ∧ (dispose s).dashPlayer = none
    ∧ (dispose s).isInitialized = false
    ∧ dispose (dispose s) = dispose s
    ∧ processVideoFrameEmit (dispose s) = none := by
  refine ⟨rfl, rfl, rfl, rfl, rfl, ?_, rfl⟩
  unfold dispose stopVideoProcessing
  cases s.videoDestination <;> rfl

/-- The texture extension handed to connectVideoTexture: the textures
carrying MPEG metadata and the video sources, both keyed by source id. -/
structure TextureExtension where
  textures : List (Nat × MpegTextureInfo)
  sources : List Nat
deriving DecidableEq

/-- The failure modes of connectVideoTexture (opencv-wrapper.js lines
363-382): both are not-found errors; the method has no not-ready error. -/
inductive ConnectError where
  | textureNotFound
  | sourceNotFound
deriving DecidableEq

/-- connectVideoTexture of the first AVPipeline (opencv-wrapper.js lines
360-434): look up the texture (throwing a not-found error when absent),
look up the video source (likewise), then store the source in the
videoSources map and register the frame handler on the videoFrame event.
The pipeline's initialization state is never consulted.  A thrown error
leaves the pipeline unchanged (the store and registration come after both
lookups). -/
def connectVideoTexture (s : AVPipeline) (ext : TextureExtension)
    (sourceId : Nat) : AVPipeline × Option ConnectError :=
  match ext.textures.lookup sourceId with
  | none => (s, some .textureNotFound)
  | some _ =>
    if ext.sources.contains sourceId then
      ({ s with
          videoSources := sourceId :: s.videoSources,
          frameHandlers := sourceId :: s.frameHandlers }, none)
    else (s, some .sourceNotFound)

/-- An entirely uninitialized pipeline: the constructor state, before
initialize has run (the spec's pre-Ready states). -/
def uninitializedPipeline : AVPipeline :=
  { isInitialized := false, videoElement := none, audioContext := none,
    dashPlayer := none, videoDestination := none, playOverlay := none,
    playButton := none, videoProcessingInterval := none,
    lastFrameTime := none, videoSources := [], frameHandlers := [],
    textureRequirements := ⟨640, 360, .RGBA, 921600⟩ }

/-- A texture extension holding MPEG metadata and a video source for
source id 0. -/
def sampleExtension : TextureExtension := ⟨[(0, ⟨640, 360, 921600⟩)], [0]⟩

/-- Counterexample to C8 as stated: connectVideoTexture called on a
pipeline that has not been initialized (pre-Ready) does not fail — it
returns no error, stores the video source and registers the frame
handler, because the method never consults the pipeline's readiness. -/
theorem connect_before_ready_cex :
    uninitializedPipeline.isInitialized = false
    ∧ (connectVideoTexture uninitializedPipeline sampleExtension 0).2 = none
    ∧ (connectVideoTexture uninitializedPipeline sampleExtension 0).1.videoSources
        = [0]
    ∧ (connectVideoTexture uninitializedPipeline sampleExtension 0).1.frameHandlers
        = [0] :=
  ⟨rfl, rfl, rfl, rfl⟩

/-- C8 amended: connectVideoTexture performs no readiness check — its
outcome is independent of the initialized flag; it fails exactly when the
texture or the video source for the requested id is not found, with a
not-found error, and on failure the pipeline is unchanged (no video
source stored and no frame handler registered); when both are found it
installs the binding in any pipeline state. -/
theorem connectVideoTexture_not_found (s : AVPipeline)
    (ext : TextureExtension) (sourceId : Nat) :
    (ext.textures.lookup sourceId = none →
        connectVideoTexture s ext sourceId = (s, some .textureNotFound))
    ∧ (∀ info, ext.textures.lookup sourceId = some info →
        ext.sources.contains sourceId = false →
        connectVideoTexture s ext sourceId = (s, some .sourceNotFound))
    ∧ (∀ e, (connectVideoTexture s ext sourceId).2 = some e →
        (connectVideoTexture s ext sourceId).1 = s)
    ∧ (connectVideoTexture s ext sourceId).2
        = (connectVideoTexture { s with isInitialized := !s.isInitialized }
            ext sourceId).2 := by
  refine ⟨?_, ?_, ?_, ?_⟩
  · intro h
    unfold connectVideoTexture
    rw [h]
  · intro info h hc
    unfold connectVideoTexture
    rw [h]
    simp at hc
    simp [hc]
  · intro e
    unfold connectVideoTexture
    cases hlook : ext.textures.lookup sourceId with
    | none => intro _; rfl
    | some info =>
      by_cases hc : sourceId ∈ ext.sources
      · simp [hc]
      · simp [hc]
  · unfold connectVideoTexture
    cases hlook : ext.textures.lookup sourceId with
    | none => rfl
    | some info =>
      by_cases hc : sourceId ∈ ext.sources
      · simp [hc]
      · simp [hc]

/-- Witness for the amended C8: connecting a missing id 5 against an empty
extension fails with the texture-not-found error and the uninitialized
pipeline is unchanged. -/
theorem connectVideoTexture_not_found_witness :
    connectVideoTexture uninitializedPipeline ⟨[], []⟩ 5
      = (uninitializedPipeline, some .textureNotFound) :=
  (connectVideoTexture_not_found uninitializedPipeline ⟨[], []⟩ 5).1 rfl

/-- stop of the first AVPipeline (opencv-wrapper.js lines 513-516): pause
the element and reset its playback position to 0.  (With no element the
JS would throw a TypeError; the claim assumes the element exists.) -/
def stopPlayback (s : AVPipeline) : AVPipeline :=
  match s.videoElement with
  | none => s
  | some v =>
      { s with videoElement := some { v with paused := true, currentTime := 0 } }

/-- getCurrentTime (opencv-wrapper.js lines 1119-1121): the element's
currentTime, or 0 when there is no element. -/
def getCurrentTime (s : AVPipeline) : ℚ :=
  match s.videoElement with
  | none => 0
  | some v => v.currentTime

/-- C10: for a pipeline whose video element exists, stop() pauses playback
and also resets the playback position to 0, so an immediately following
getCurrentTime() returns 0 — stop() is not merely a pause. -/
theorem stop_resets_position (s : AVPipeline) (v : VideoElement)
    (hv : s.videoElement = some v) :
    getCurrentTime (stopPlayback s) = 0
    ∧ (stopPlayback s).videoElement
        = some { v with paused := true, currentTime := 0 } := by
  have h1 : stopPlayback s
      = { s with videoElement := some { v with paused := true, currentTime := 0 } } := by
    unfold stopPlayback
    rw [hv]
  rw [h1]
  exact ⟨rfl, rfl⟩

/-- Witness for C10: stopping the live pipeline pauses it and resets its
position, and getCurrentTime then returns 0. -/
theorem stop_resets_position_witness :
    getCurrentTime (stopPlayback livePipeline) = 0
    ∧ (stopPlayback livePipeline).videoElement
        = some ⟨true, false, 2, 0, 4, 2⟩ :=
  stop_resets_position livePipeline ⟨false, false, 2, 1, 4, 2⟩ rfl
